import Mathlib

/-!
Shallow embedding of the Adobe-1B repository (src/main.py and src/app.py).

Modelling conventions:
* Python `str` is modelled by Lean `String`; the character-class predicates
  (`isupper`, `istitle`, `isprintable`, whitespace) follow Python's semantics
  restricted to ASCII text, which is the alphabet all claims and witnesses use.
* Python `float` quantities that only ever feed comparisons (font sizes, page
  widths) are modelled as exact rationals; relevance scores, which involve
  `math.log`, are modelled as real numbers.
* Python `int` is modelled by `Int` (or `Nat` where the source value is a
  count that is never negative).
* Filesystem and PDF-reader effects are modelled by an explicit environment
  record passed to the functions that perform them.
-/

namespace Adobe1B

/-! ## Python string primitives (ASCII model) -/

/-- Python whitespace characters (`str.split()` / `str.strip()` default set,
ASCII fragment). -/
def pyIsSpace (c : Char) : Bool :=
  c = ' ' || c = '\t' || c = '\n' || c = '\x0d' || c = '\x0b' || c = '\x0c'

/-- Python `str.strip()` with no argument. -/
def pyStrip (s : String) : String :=
  String.mk (((s.data.dropWhile pyIsSpace).reverse.dropWhile pyIsSpace).reverse)

/-- One step of the right fold computing maximal runs: the accumulator holds
the run currently being built (growing leftwards) and the finished runs. -/
def runsByStep (p : Char → Bool) (c : Char) (acc : List Char × List (List Char)) :
    List Char × List (List Char) :=
  if p c then (c :: acc.1, acc.2)
  else ([], if acc.1.isEmpty then acc.2 else acc.1 :: acc.2)

/-- Maximal runs of characters satisfying `p`, in order, skipping the rest.
Used to model whitespace splitting and the `\b[a-zA-Z]{3,}\b` regex. -/
def runsBy (p : Char → Bool) (l : List Char) : List (List Char) :=
  let acc := l.foldr (runsByStep p) ([], [])
  if acc.1.isEmpty then acc.2 else acc.1 :: acc.2

/-- Python `str.split()` with no argument: whitespace-delimited words,
empty strings never produced. -/
def pyWords (s : String) : List String :=
  (runsBy (fun c => !(pyIsSpace c)) s.data).map String.mk

/-- Python `str.lower()` (ASCII model). -/
def pyLower (s : String) : String := String.mk (s.data.map Char.toLower)

/-- Python `str.isprintable()` (ASCII model: the printable characters are
0x20..0x7e; the empty string is printable). -/
def pyIsPrintable (s : String) : Bool :=
  s.data.all (fun c => 0x20 ≤ c.toNat && c.toNat ≤ 0x7e)

/-- Python `str.isupper()`: at least one cased character and no lowercase
character (ASCII model). -/
def pyIsUpper (s : String) : Bool :=
  s.data.any (fun c => c.isUpper || c.isLower) && s.data.all (fun c => !c.isLower)

/-- State-passing core of Python `str.istitle()`: uppercase characters may only
follow uncased characters, lowercase characters only cased ones, and at least
one cased character must occur (ASCII model). -/
def pyIsTitleAux : List Char → Bool → Bool → Bool
  | [], _, hasCased => hasCased
  | c :: rest, prevCased, hasCased =>
      if c.isUpper then
        if prevCased then false else pyIsTitleAux rest true true
      else if c.isLower then
        if prevCased then pyIsTitleAux rest true true else false
      else pyIsTitleAux rest false hasCased

/-- Python `str.istitle()` (ASCII model). -/
def pyIsTitle (s : String) : Bool := pyIsTitleAux s.data false false

/-- Non-overlapping occurrence counting, scanning left to right, for a
non-empty pattern (core of Python `str.count`).  The fuel argument bounds the
number of scan steps; with fuel at least the text length the scan is exact,
since every step consumes at least one character. -/
def pyCountAux (pat : List Char) : ℕ → List Char → ℕ
  | _, [] => 0
  | 0, _ => 0
  | fuel + 1, c :: rest =>
      if pat.isPrefixOf (c :: rest) then
        1 + pyCountAux pat fuel (List.drop (pat.length - 1) rest)
      else pyCountAux pat fuel rest

/-- Python `text.count(pat)`: non-overlapping substring occurrences; for the
empty pattern Python returns `len(text) + 1`. -/
def pyCount (pat text : String) : ℕ :=
  if pat.data.isEmpty then text.length + 1
  else pyCountAux pat.data text.data.length text.data

/-- Core of Python `str.find`: index of the first occurrence of `pat`. -/
def pyFindAux (pat : List Char) : List Char → Option ℕ
  | [] => if pat.isEmpty then some 0 else none
  | c :: rest =>
      if pat.isPrefixOf (c :: rest) then some 0
      else (pyFindAux pat rest).map (· + 1)

/-- Python `text.find(pat)` as an `Option` (Python returns `-1` for `none`). -/
def pyFind (pat text : String) : Option ℕ := pyFindAux pat.data text.data

/-- Python substring membership `pat in text`. -/
def pyContains (pat text : String) : Bool := (pyFind pat text).isSome

/-- Python slice `s[a:b]` for non-negative bounds (both ends clipped). -/
def pySlice (s : String) (a b : ℕ) : String := String.mk ((s.data.take b).drop a)

/-- `os.path.basename` for POSIX paths: the component after the last slash. -/
def basename (p : String) : String := (p.splitOn "/").getLastD ""

/-! ## src/main.py: layout heading extractor -/

/-- A PDF text span as consumed by `get_span_score`: raw text, font size,
style-flag bitmask and bounding box `(x0, y0, x1, y1)`. -/
structure Span where
  text : String
  size : ℚ
  flags : ℕ
  bbox : ℚ × ℚ × ℚ × ℚ

/-- `main.get_span_score`: score a span against the document-wide maximum font
size and the page width. -/
def get_span_score (span : Span) (max_font page_width : ℚ) : ℤ :=
  let text := pyStrip span.text
  if text = "" || (pyWords text).length > 15 || !(pyIsPrintable text) then 0
  else
    let fontScore : ℤ :=
      if span.size ≥ max_font * (95 / 100) then 3
      else if span.size ≥ max_font * (75 / 100) then 2
      else if span.size ≥ max_font * (60 / 100) then 1
      else 0
    let styleScore : ℤ := if span.flags &&& 2 ≠ 0 ∨ span.flags &&& 8 ≠ 0 then 1 else 0
    let capsScore : ℤ := if pyIsTitle text || pyIsUpper text then 1 else 0
    let centerScore : ℤ :=
      if span.bbox.1 > page_width * (25 / 100) ∧ span.bbox.2.2.1 < page_width * (75 / 100)
      then 1 else 0
    fontScore + styleScore + capsScore + centerScore

/-- `main.classify_level`: map a span score to a heading level, `none` meaning
no heading (Python `None`). -/
def classify_level (score : ℤ) : Option String :=
  if score ≥ 5 then some "H1"
  else if score ≥ 3 then some "H2"
  else if score ≥ 2 then some "H3"
  else none

/-- An emitted heading record of `extract_headings_from_pdf`. -/
structure OutHeading where
  level : String
  text : String
  page : ℕ

/-- One page of span data as delivered by the PDF reader: page width plus the
spans of all blocks and lines, flattened in reading order. -/
structure PageSpans where
  width : ℚ
  spans : List Span

/-- The first loop of `main.extract_headings_from_pdf`: fold over the first
page's spans keeping the largest font size (for stripped text longer than one
character) and the corresponding text as the document title. -/
def docMaxFontTitle (firstPage : List Span) : ℚ × String :=
  firstPage.foldl
    (fun acc sp =>
      if acc.1 < sp.size ∧ 1 < (pyStrip sp.text).length
      then (sp.size, pyStrip sp.text) else acc)
    (0, "")

/-- The per-span step of the second loop of `extract_headings_from_pdf`: a span
yields a heading record exactly when `classify_level` of its score is truthy. -/
def spanEmission (sp : Span) (max_font width : ℚ) (page : ℕ) : Option OutHeading :=
  match classify_level (get_span_score sp max_font width) with
  | some lv => some ⟨lv, pyStrip sp.text, page⟩
  | none => none

/-- `main.extract_headings_from_pdf` over explicit span data: pages are
enumerated from 1, and every span whose score classifies to a level is
emitted in reading order. -/
def extract_headings (pages : List PageSpans) : String × List OutHeading :=
  let mf := docMaxFontTitle ((pages.headD ⟨0, []⟩).spans)
  (mf.2,
    ((pages.enumFrom 1).map
      (fun pg => pg.2.spans.filterMap (fun sp => spanEmission sp mf.1 pg.2.width pg.1))).flatten)

/-! ## src/app.py: persona-driven analyzer -/

/-- `PersonaDrivenAnalyzer.keyword_weights`, as a function from persona
category to keyword list; `dict.get` with default `[]` for unknown keys. -/
def keyword_weights (persona_type : String) : List String :=
  if persona_type = "research" then
    ["methodology", "experiment", "analysis", "results", "conclusion", "literature",
     "study", "findings", "data", "statistical", "hypothesis", "validation",
     "benchmarks", "performance", "evaluation", "metrics"]
  else if persona_type = "business" then
    ["revenue", "profit", "investment", "market", "strategy", "growth", "financial",
     "roi", "competitive", "analysis", "trends", "positioning", "r&d", "operations",
     "management"]
  else if persona_type = "education" then
    ["concept", "theory", "principle", "definition", "example", "mechanism",
     "process", "formula", "reaction", "kinetics", "properties", "structure",
     "function", "application"]
  else if persona_type = "technical" then
    ["algorithm", "model", "system", "framework", "architecture", "implementation",
     "optimization", "parameters", "configuration", "performance", "scalability"]
  else []

/-- `PersonaDrivenAnalyzer.identify_persona_type`: first matching trigger-word
set wins, default `technical`. -/
def identify_persona_type (persona : String) : String :=
  let pl := pyLower persona
  if ["researcher", "phd", "scientist", "academic"].any (fun w => pyContains w pl) then
    "research"
  else if ["analyst", "investment", "business", "financial"].any (fun w => pyContains w pl) then
    "business"
  else if ["student", "undergraduate", "learner"].any (fun w => pyContains w pl) then
    "education"
  else "technical"

/-- The stop-word set of `extract_keywords_from_job`. -/
def stop_words : List String :=
  ["the", "a", "an", "and", "or", "but", "in", "on", "at", "to", "for", "of",
   "with", "by", "is", "are", "was", "were", "be", "been", "being", "have",
   "has", "had", "do", "does", "did", "will", "would", "should", "could",
   "can", "may", "might", "must", "shall"]

/-- A regex word character (`\w` over ASCII): letter, digit or underscore. -/
def isPyWordChar (c : Char) : Bool := c.isAlpha || c.isDigit || c = '_'

/-- `re.findall(r'\b[a-zA-Z]{3,}\b', s)` over ASCII text: the maximal
word-character runs of `s` that consist entirely of letters and have length at
least 3 (the word-boundary anchors forbid partial matches inside a run). -/
def findallAlpha3 (s : String) : List String :=
  ((runsBy isPyWordChar s.data).map String.mk).filter
    (fun w => 3 ≤ w.length && w.data.all Char.isAlpha)

/-- The odd-indexed pieces of a split on the quote character that are closed by
a further quote: this is `re.findall(r'"([^"]*)"', s)` applied to a string with
pieces `parts = s.split(chr(34))`. -/
def oddClosedPieces : List String → List String
  | _ :: b :: rest => if rest.isEmpty then [] else b :: oddClosedPieces rest
  | _ => []

/-- `re.findall(r'"([^"]*)"', s)`: the contents of successive double-quote
pairs, scanned left to right. -/
def findallQuoted (s : String) : List String := oddClosedPieces (s.splitOn "\"")

/-- `PersonaDrivenAnalyzer.extract_keywords_from_job`: length-3-plus alphabetic
words of the lowercased job text minus stop words, plus the whitespace-split
words of each double-quoted phrase, deduplicated (`list(set(...))`). -/
def extract_keywords_from_job (job_description : String) : List String :=
  let words := findallAlpha3 (pyLower job_description)
  let keywords := words.filter (fun w => !(stop_words.contains w))
  let quoted := (findallQuoted (pyLower job_description)).map pyWords
  (keywords ++ quoted.flatten).dedup

/-- `PersonaDrivenAnalyzer.calculate_relevance_score`: keyword-count score plus
a logarithmic length bonus for blocks of more than 50 words. -/
noncomputable def calculate_relevance_score
    (text : String) (persona_type : String) (job_keywords : List String) : ℝ :=
  let text_lower := pyLower text
  let personaScore : ℕ :=
    ((keyword_weights persona_type).map (fun k => pyCount k text_lower * 2)).sum
  let jobScore : ℕ := (job_keywords.map (fun k => pyCount k text_lower * 3)).sum
  let word_count : ℕ := (pyWords text).length
  (personaScore + jobScore : ℝ) +
    (if 50 < word_count then Real.log word_count * 0.5 else 0)

/-- `PersonaDrivenAnalyzer.extract_subsections`: stripped blank-line-separated
paragraphs longer than 100 characters, truncated to 200 characters plus an
ellipsis, at most five of them. -/
def extract_subsections (content : String) : List String :=
  (((content.splitOn "\n\n").filterMap (fun para0 =>
      let para := pyStrip para0
      if 100 < para.length then
        some (if 200 < para.length then pySlice para 0 200 ++ "..." else para)
      else none))).take 5

/-- One entry of a Round-1A outline sidecar: `{level, text, page}`. -/
structure Heading where
  level : String
  text : String
  page : ℤ

/-- A parsed outline sidecar document.  The `outline` field is optional because
the sidecar JSON object may lack the `outline` key (the code tests
`'outline' in outline_data`). -/
structure OutlineData where
  outline : Option (List Heading)

/-- A candidate section before scoring, as built by `identify_sections`:
`{title, page, level, content}` with content initially empty. -/
structure SectionSeed where
  title : String
  page : ℤ
  level : String
  content : String

/-- `PersonaDrivenAnalyzer.identify_sections`: seed one section per outline
entry when an outline with an `outline` key is supplied; when that produces no
sections, fall back to the line heuristic over every page (stripped line
non-empty, shorter than 100 characters, all-caps or title-case, not ending in
a period, at most 10 words; level defaults to H1). -/
def identify_sections
    (text_content : List (ℤ × String)) (outline_data : Option OutlineData) :
    List SectionSeed :=
  let seeded : List SectionSeed :=
    match outline_data with
    | some od =>
        match od.outline with
        | some hs => hs.map (fun h => ⟨h.text, h.page, h.level, ""⟩)
        | none => []
    | none => []
  if seeded.isEmpty then
    (text_content.map (fun pc =>
      (pc.2.splitOn "\n").filterMap (fun line0 =>
        let line := pyStrip line0
        if 0 < line.length ∧ line.length < 100 ∧
            (pyIsUpper line || pyIsTitle line) = true ∧
            line.endsWith "." = false ∧ (pyWords line).length ≤ 10 then
          some ⟨line, pc.1, "H1", ""⟩
        else none))).flatten
  else seeded

/-- The content-window step of `process_documents`: find the first occurrence
of the section title in the page text and take 1000 characters from there, or
the first 1000 characters of the page when the title does not occur. -/
def sectionWindow (page_content title : String) : String :=
  match pyFind title page_content with
  | some o => pySlice page_content o (o + 1000)
  | none => pySlice page_content 0 1000

/-- An entry of the `all_sections` accumulator of `process_documents`. -/
structure SectionCand where
  document : String
  page_number : ℤ
  section_title : String
  relevance_score : ℝ
  content : String

/-- An entry of the emitted `extracted_sections` list. -/
structure Extracted where
  document : String
  section_title : String
  importance_rank : ℕ
  page_number : ℤ

/-- An entry of the emitted `subsection_analysis` list. -/
structure Refined where
  document : String
  refined_text : String
  page_number : ℤ

/-- The canonical input record consumed by `process_documents`. -/
structure InputData where
  documents : List String
  persona : String
  job_to_be_done : String

/-- The effectful collaborators of `process_documents`: path existence, the
PDF reader (`extract_text_from_pdf`, pages numbered from 1 in order), and the
outline sidecar at a path — `none` means the file does not exist, `some none`
means it exists but `json.load` fails, `some (some od)` means it parses. -/
structure Env where
  pathExists : String → Bool
  pdfPages : String → List (ℤ × String)
  sidecar : String → Option (Option OutlineData)

/-- `doc_path.replace(".pdf", ".json")`. -/
def jsonPath (doc_path : String) : String := doc_path.replace ".pdf" ".json"

/-- The sidecar-loading step of `process_documents`: `outline_data` stays
`None` when the sidecar file is absent (`none`) or `json.load` raises
(`some none`, the bare `except: pass`). -/
def sidecarOutline (v : Option (Option OutlineData)) : Option OutlineData :=
  match v with
  | some (some od) => some od
  | some none => none
  | none => none

/-- Dictionary lookup `text_content[page_num]` (first match). -/
def lookupPage (text_content : List (ℤ × String)) (page : ℤ) : Option String :=
  (text_content.find? (fun pc => pc.1 = page)).map (fun pc => pc.2)

/-- The per-document body of the loop of `process_documents`: a missing path
contributes nothing; otherwise sections are identified (seeded by the sidecar
outline when it exists and parses), windowed, scored, and kept when the score
is positive.  Sections whose page is absent from the extracted text are
skipped. -/
noncomputable def processDoc
    (env : Env) (persona_type : String) (job_keywords : List String)
    (doc_path : String) : List SectionCand :=
  if env.pathExists doc_path then
    let doc_name := basename doc_path
    let text_content := env.pdfPages doc_path
    let outline_data := sidecarOutline (env.sidecar (jsonPath doc_path))
    let sections := identify_sections text_content outline_data
    sections.filterMap (fun s =>
      match lookupPage text_content s.page with
      | some page_content =>
          let section_content := sectionWindow page_content s.title
          let relevance_score :=
            calculate_relevance_score section_content persona_type job_keywords
          if 0 < relevance_score then
            some ⟨doc_name, s.page, s.title, relevance_score, section_content⟩
          else none
      | none => none)
  else []

/-- The full `all_sections` accumulator across all documents. -/
noncomputable def allSections (env : Env) (input : InputData) : List SectionCand :=
  let persona_type := identify_persona_type input.persona
  let job_keywords := extract_keywords_from_job input.job_to_be_done
  (input.documents.map (processDoc env persona_type job_keywords)).flatten

/-- Descending order on relevance scores (`sort(key=score, reverse=True)`). -/
def scoreGE (a b : SectionCand) : Prop := b.relevance_score ≤ a.relevance_score

noncomputable instance : DecidableRel scoreGE :=
  fun a b => Real.decidableLE b.relevance_score a.relevance_score

instance : IsTotal SectionCand scoreGE :=
  ⟨fun a b => (le_total b.relevance_score a.relevance_score).imp id id⟩

instance : IsTrans SectionCand scoreGE :=
  ⟨fun _ _ _ h1 h2 => le_trans h2 h1⟩

/-- The sorted, truncated candidate list `all_sections[:10]` after the
descending sort by relevance score. -/
noncomputable def topSections (env : Env) (input : InputData) : List SectionCand :=
  (List.insertionSort scoreGE (allSections env input)).take 10

/-- The emitted `extracted_sections` list: ranks assigned by
`enumerate(all_sections[:10], 1)`. -/
noncomputable def extractedSections (env : Env) (input : InputData) : List Extracted :=
  (List.enumFrom 1 (topSections env input)).map
    (fun p => ⟨p.2.document, p.2.section_title, p.1, p.2.page_number⟩)

/-- The emitted `subsection_analysis` list: up to five refined excerpts per
retained section. -/
noncomputable def subsectionAnalysis (env : Env) (input : InputData) : List Refined :=
  (topSections env input).flatMap (fun s =>
    (extract_subsections s.content).map (fun t => ⟨s.document, t, s.page_number⟩))

/-- The result record of `process_documents`.  The wall-clock
`processing_timestamp` metadata field is outside the model. -/
structure RunResult where
  input_documents : List String
  persona : String
  job_to_be_done : String
  extracted_sections : List Extracted
  subsection_analysis : List Refined

/-- `PersonaDrivenAnalyzer.process_documents` over an explicit environment. -/
noncomputable def process_documents (env : Env) (input : InputData) : RunResult :=
  ⟨(input.documents.filter env.pathExists).map basename,
   input.persona,
   input.job_to_be_done,
   extractedSections env input,
   subsectionAnalysis env input⟩

/-! ## src/app.py: input-config normalization (`parse_input_format`) -/

/-- Claim C2: `classify_level` is a pure step function of the integer score:
for every score `s` it returns `H1` when `s ≥ 5`, `H2` when `3 ≤ s < 5`,
`H3` when `2 ≤ s < 3`, and no heading (`none`) when `s < 2`. -/
theorem claim_C2_classify_level_step (s : ℤ) :
    (5 ≤ s → classify_level s = some "H1") ∧
    (3 ≤ s ∧ s < 5 → classify_level s = some "H2") ∧
    (2 ≤ s ∧ s < 3 → classify_level s = some "H3") ∧
    (s < 2 → classify_level s = none) := by
  unfold classify_level
  refine ⟨fun h => ?_, fun h => ?_, fun h => ?_, fun h => ?_⟩ <;>
    split_ifs <;> first | rfl | omega

/-- Witness for claim C2 at the concrete scores 6, 4, 2 and 1. -/
theorem claim_C2_classify_level_step_witness :
    classify_level 6 = some "H1" ∧ classify_level 4 = some "H2" ∧
    classify_level 2 = some "H3" ∧ classify_level 1 = none :=
  ⟨(claim_C2_classify_level_step 6).1 (by decide),
   (claim_C2_classify_level_step 4).2.1 (by decide),
   (claim_C2_classify_level_step 2).2.2.1 (by decide),
   (claim_C2_classify_level_step 1).2.2.2 (by decide)⟩

/-- `pySlice` is insensitive to clipping the upper bound at the string
length. -/
theorem pySlice_clip (s : String) (a b : ℕ) :
    pySlice s a b = pySlice s a (min b s.length) := by
  unfold pySlice
  have h : s.data.take b = s.data.take (min b s.length) := by
    rw [List.take_eq_take]
    show min b s.data.length = min (min b s.data.length) s.data.length
    omega
  rw [h]

/-- Claim C5: the content window is the title-anchored 1000-character slice,
clipped to the page length; when the title does not occur, it is the first
`min(1000, L)` characters of the page text. -/
theorem claim_C5_content_window (page_content title : String) :
    (∀ o, pyFind title page_content = some o →
      sectionWindow page_content title =
        pySlice page_content o (min (o + 1000) page_content.length)) ∧
    (pyFind title page_content = none →
      sectionWindow page_content title =
        pySlice page_content 0 (min 1000 page_content.length)) := by
  constructor
  · intro o h
    unfold sectionWindow
    rw [h]
    exact pySlice_clip page_content o (o + 1000)
  · intro h
    unfold sectionWindow
    rw [h]
    exact pySlice_clip page_content 0 1000

/-- Witness for claim C5: the title `"Intro"` occurs at offset 4 of the page
text, and the title `"zz"` does not occur at all. -/
theorem claim_C5_content_window_witness :
    pyFind "Intro" "abc Intro body" = some 4 ∧
    sectionWindow "abc Intro body" "Intro" =
      pySlice "abc Intro body" 4 (min (4 + 1000) ("abc Intro body").length) ∧
    pyFind "zz" "abc Intro body" = none ∧
    sectionWindow "abc Intro body" "zz" =
      pySlice "abc Intro body" 0 (min 1000 ("abc Intro body").length) :=
  ⟨by decide,
   (claim_C5_content_window "abc Intro body" "Intro").1 4 (by decide),
   by decide,
   (claim_C5_content_window "abc Intro body" "zz").2 (by decide)⟩

/-- Claim C10: a supplied sidecar outline whose `outline` list is empty (or
whose `outline` key is missing) does not seed zero sections: `identify_sections`
falls through to the inferred line-heuristic scan exactly as if no outline had
been supplied, and only a non-empty supplied outline yields one section per
outline entry. -/
theorem claim_C10_empty_outline_falls_through
    (text_content : List (ℤ × String)) (hs : List Heading) :
    identify_sections text_content (some ⟨some []⟩) =
      identify_sections text_content none ∧
    identify_sections text_content (some ⟨none⟩) =
      identify_sections text_content none ∧
    (hs ≠ [] →
      identify_sections text_content (some ⟨some hs⟩) =
        hs.map (fun h => ⟨h.text, h.page, h.level, ""⟩)) := by
  refine ⟨rfl, rfl, fun h => ?_⟩
  unfold identify_sections
  simp [List.isEmpty_iff, h]

/-- Witness for claim C10 at a one-entry outline. -/
theorem claim_C10_empty_outline_falls_through_witness :
    identify_sections [(1, "page text")] (some ⟨some [⟨"H2", "Background", 3⟩]⟩) =
      [⟨"Background", 3, "H2", ""⟩] :=
  (claim_C10_empty_outline_falls_through [(1, "page text")]
    [⟨"H2", "Background", 3⟩]).2.2 (by simp)

/-- Claim C3: a span whose stripped text is non-empty, printable and at most
15 words, whose font size is below 60% of the document maximum, with neither
the bold nor the italic flag bit set, text neither title-case nor all-caps,
and whose bounding box does not lie strictly within the middle 50% of the page
width, scores 0, and no heading is emitted for it; a span with empty stripped
text, more than 15 words, or non-printable characters scores 0
unconditionally.  (`0 ≤ max_font` holds for every run of the source, where
`max_font` starts at 0 and only ever increases.) -/
theorem claim_C3_plain_span_never_heading (span : Span) (max_font page_width : ℚ) :
    (pyStrip span.text = "" ∨ 15 < (pyWords (pyStrip span.text)).length ∨
        pyIsPrintable (pyStrip span.text) = false →
      get_span_score span max_font page_width = 0) ∧
    (0 ≤ max_font →
      pyStrip span.text ≠ "" →
      pyIsPrintable (pyStrip span.text) = true →
      (pyWords (pyStrip span.text)).length ≤ 15 →
      span.size < max_font * (60 / 100) →
      span.flags &&& 2 = 0 →
      span.flags &&& 8 = 0 →
      pyIsTitle (pyStrip span.text) = false →
      pyIsUpper (pyStrip span.text) = false →
      ¬(span.bbox.1 > page_width * (25 / 100) ∧
          span.bbox.2.2.1 < page_width * (75 / 100)) →
      get_span_score span max_font page_width = 0 ∧
        classify_level (get_span_score span max_font page_width) = none ∧
        ∀ page, spanEmission span max_font page_width page = none) := by
  constructor
  · intro h
    unfold get_span_score
    rcases h with h | h | h
    · simp [h]
    · simp [h]
    · simp [h]
  · intro h0 hne hpr hw hsz h2 h8 ht hu hc
    have h60 : ¬(span.size ≥ max_font * (60 / 100)) := not_le.mpr hsz
    have h75 : ¬(span.size ≥ max_font * (75 / 100)) := by
      refine not_le.mpr (lt_of_lt_of_le hsz ?_)
      exact mul_le_mul_of_nonneg_left (by norm_num) h0
    have h95 : ¬(span.size ≥ max_font * (95 / 100)) := by
      refine not_le.mpr (lt_of_lt_of_le hsz ?_)
      exact mul_le_mul_of_nonneg_left (by norm_num) h0
    have hstyle : ¬(span.flags &&& 2 ≠ 0 ∨ span.flags &&& 8 ≠ 0) := by
      simp [h2, h8]
    have hscore : get_span_score span max_font page_width = 0 := by
      unfold get_span_score
      simp only [hne, hpr, ht, hu, decide_eq_true_eq]
      simp only [if_neg h95, if_neg h75, if_neg h60, if_neg hstyle, if_neg hc]
      simp [hne, hpr, Nat.not_lt.mpr hw]
    refine ⟨hscore, ?_, ?_⟩
    · rw [hscore]; rfl
    · intro page
      unfold spanEmission
      rw [hscore]
      rfl

/-- Witness for claim C3: a small lowercase left-aligned span in a small font
scores 0 and yields no heading, and a 16-word span scores 0 via the degenerate
guard. -/
theorem claim_C3_plain_span_never_heading_witness :
    (get_span_score ⟨"hello there you", 1, 0, (0, 0, 1, 0)⟩ 10 10 = 0 ∧
      classify_level (get_span_score ⟨"hello there you", 1, 0, (0, 0, 1, 0)⟩ 10 10) = none ∧
      ∀ page, spanEmission ⟨"hello there you", 1, 0, (0, 0, 1, 0)⟩ 10 10 page = none) ∧
    get_span_score ⟨"a b c d e f g h i j k l m n o p", 10, 0, (0, 0, 1, 0)⟩ 10 10 = 0 :=
  ⟨(claim_C3_plain_span_never_heading ⟨"hello there you", 1, 0, (0, 0, 1, 0)⟩ 10 10).2
      (by norm_num) (by decide) (by decide) (by decide) (by norm_num)
      (by decide) (by decide) (by decide) (by decide)
      (by intro h; exact absurd h.1 (by norm_num)),
   (claim_C3_plain_span_never_heading ⟨"a b c d e f g h i j k l m n o p", 10, 0, (0, 0, 1, 0)⟩ 10 10).1
      (Or.inr (Or.inl (by decide)))⟩

/-- Claim C7: `identify_persona_type` matches the fixed trigger-word sets in
order (research, business, education) on the lowercased role string and
defaults to `technical`; in particular the two concrete examples from the
specification hold. -/
theorem claim_C7_identify_persona_type (persona : String) :
    ((["researcher", "phd", "scientist", "academic"].any
        (fun w => pyContains w (pyLower persona))) = true →
      identify_persona_type persona = "research") ∧
    ((["researcher", "phd", "scientist", "academic"].any
        (fun w => pyContains w (pyLower persona))) = false →
      (["analyst", "investment", "business", "financial"].any
        (fun w => pyContains w (pyLower persona))) = true →
      identify_persona_type persona = "business") ∧
    ((["researcher", "phd", "scientist", "academic"].any
        (fun w => pyContains w (pyLower persona))) = false →
      (["analyst", "investment", "business", "financial"].any
        (fun w => pyContains w (pyLower persona))) = false →
      (["student", "undergraduate", "learner"].any
        (fun w => pyContains w (pyLower persona))) = true →
      identify_persona_type persona = "education") ∧
    ((["researcher", "phd", "scientist", "academic"].any
        (fun w => pyContains w (pyLower persona))) = false →
      (["analyst", "investment", "business", "financial"].any
        (fun w => pyContains w (pyLower persona))) = false →
      (["student", "undergraduate", "learner"].any
        (fun w => pyContains w (pyLower persona))) = false →
      identify_persona_type persona = "technical") ∧
    identify_persona_type "PhD Researcher in Computational Biology" = "research" ∧
    identify_persona_type "Investment Analyst" = "business" := by
  refine ⟨fun h1 => ?_, fun h1 h2 => ?_, fun h1 h2 h3 => ?_, fun h1 h2 h3 => ?_,
    by decide, by decide⟩ <;>
  · unfold identify_persona_type
    simp only [h1]
    first
    | rfl
    | (simp only [h2]; first | rfl | (simp only [h3]; rfl))

/-- Witness for claim C7 at the roles "Senior Data Scientist" (research),
"Market Analyst" (business), "Undergraduate" (education) and "Plumber"
(technical). -/
theorem claim_C7_identify_persona_type_witness :
    identify_persona_type "Senior Data Scientist" = "research" ∧
    identify_persona_type "Market Analyst" = "business" ∧
    identify_persona_type "Undergraduate" = "education" ∧
    identify_persona_type "Plumber" = "technical" :=
  ⟨(claim_C7_identify_persona_type "Senior Data Scientist").1 (by decide),
   (claim_C7_identify_persona_type "Market Analyst").2.1 (by decide) (by decide),
   (claim_C7_identify_persona_type "Undergraduate").2.2.1
     (by decide) (by decide) (by decide),
   (claim_C7_identify_persona_type "Plumber").2.2.2.1
     (by decide) (by decide) (by decide)⟩

/-- Claim C6: `extract_keywords_from_job` is deterministic, idempotent and
order-independent: it returns a duplicate-free list whose underlying set is
the union of the filtered lowercase alphabetic words (length at least 3,
stop words removed) and the unfiltered whitespace-split words of all
double-quoted phrases, and re-extracting from identical job text yields an
identical result. -/
theorem claim_C6_keyword_extraction (job : String) :
    (extract_keywords_from_job job).Nodup ∧
    (extract_keywords_from_job job).toFinset =
      ((findallAlpha3 (pyLower job)).filter
          (fun w => !(stop_words.contains w))).toFinset ∪
        (((findallQuoted (pyLower job)).map pyWords).flatten).toFinset ∧
    (∀ job2, job2 = job →
      extract_keywords_from_job job2 = extract_keywords_from_job job) := by
  refine ⟨List.nodup_dedup _, ?_, fun job2 h => by rw [h]⟩
  ext a
  simp [extract_keywords_from_job, List.mem_dedup, List.mem_append]

/-- Witness for claim C6 on a job text with a quoted phrase; the hypothesis of
the determinism conjunct is discharged at syntactically identical text. -/
theorem claim_C6_keyword_extraction_witness :
    extract_keywords_from_job "Review the \"GPU kernels\" for ML" =
      extract_keywords_from_job "Review the \"GPU kernels\" for ML" :=
  (claim_C6_keyword_extraction "Review the \"GPU kernels\" for ML").2.2
    "Review the \"GPU kernels\" for ML" rfl

/-- Summing `f k * c` over a list equals `c` times the sum of `f`. -/
theorem list_sum_map_mul_right (l : List String) (f : String → ℕ) (c : ℕ) :
    (l.map (fun k => f k * c)).sum = c * (l.map f).sum := by
  induction l with
  | nil => simp
  | cons x xs ih => simp [ih]; ring

/-- Every entry of the `all_sections` accumulator has a positive relevance
score: `process_documents` appends a section only under `relevance_score > 0`. -/
theorem mem_allSections_pos (env : Env) (input : InputData) :
    ∀ s ∈ allSections env input, 0 < s.relevance_score := by
  intro s hs
  unfold allSections at hs
  rw [List.mem_flatten] at hs
  obtain ⟨l, hl, hsl⟩ := hs
  rw [List.mem_map] at hl
  obtain ⟨d, _, rfl⟩ := hl
  unfold processDoc at hsl
  split at hsl
  · rw [List.mem_filterMap] at hsl
    obtain ⟨seed, _, hsome⟩ := hsl
    split at hsome
    · dsimp only at hsome
      split at hsome
      · cases hsome
        assumption
      · exact Option.noConfusion hsome
    · exact Option.noConfusion hsome
  · exact absurd hsl (List.not_mem_nil s)

/-- Claim C4: the relevance score equals 2 times the persona-keyword
occurrence total plus 3 times the job-keyword occurrence total, plus
`0.5 * ln(word count)` exactly when the word count exceeds 50; the result is
non-negative; and every section in the candidate list has positive score (a
score of at most 0 is excluded). -/
theorem claim_C4_relevance_score
    (text persona_type : String) (job_keywords : List String)
    (env : Env) (input : InputData) :
    calculate_relevance_score text persona_type job_keywords =
      2 * (((keyword_weights persona_type).map
              (fun k => pyCount k (pyLower text))).sum : ℝ) +
        3 * ((job_keywords.map (fun k => pyCount k (pyLower text))).sum : ℝ) +
        (if 50 < (pyWords text).length then
          0.5 * Real.log ((pyWords text).length : ℝ) else 0) ∧
    0 ≤ calculate_relevance_score text persona_type job_keywords ∧
    (allSections env input).Forall (fun s => 0 < s.relevance_score) := by
  refine ⟨?_, ?_, List.forall_iff_forall_mem.mpr (mem_allSections_pos env input)⟩
  · unfold calculate_relevance_score
    dsimp only
    rw [list_sum_map_mul_right _ _ 2, list_sum_map_mul_right _ _ 3]
    push_cast
    split_ifs <;> ring
  · unfold calculate_relevance_score
    dsimp only
    refine add_nonneg (by positivity) ?_
    split_ifs with h
    · have h1 : (1 : ℝ) ≤ ((pyWords text).length : ℝ) := by
        exact_mod_cast Nat.one_le_iff_ne_zero.mpr (by omega)
      exact mul_nonneg (Real.log_nonneg h1) (by norm_num)
    · exact le_refl 0

/-- Claim C1: the emitted `importance_rank` values are exactly the contiguous
sequence `1 .. min(10, number of candidate sections)` — and the candidate list
holds precisely the positively scored sections, by `mem_allSections_pos` —
with no gaps or repeats, and relevance scores are non-increasing across
adjacent ranks of the retained sections. -/
theorem claim_C1_importance_rank (env : Env) (input : InputData) :
    (extractedSections env input).map (fun e => e.importance_rank) =
      List.range' 1 (min 10 (allSections env input).length) ∧
    List.Chain' scoreGE (topSections env input) := by
  constructor
  · unfold extractedSections
    rw [List.map_map]
    have hcomp : ((fun e : Extracted => e.importance_rank) ∘
        (fun p : ℕ × SectionCand =>
          (⟨p.2.document, p.2.section_title, p.1, p.2.page_number⟩ : Extracted))) =
        Prod.fst := rfl
    rw [hcomp, List.enumFrom_map_fst]
    congr 1
    unfold topSections
    rw [List.length_take,
      (List.perm_insertionSort scoreGE (allSections env input)).length_eq]
  · unfold topSections
    exact (List.Pairwise.sublist (List.take_sublist _ _)
      (List.sorted_insertionSort scoreGE _)).chain'

/-- Replace "sidecar present but unparsable" (`some none`) by "sidecar
absent" (`none`) in a sidecar oracle, leaving everything else unchanged. -/
def cleanseSidecar (f : String → Option (Option OutlineData)) :
    String → Option (Option OutlineData) :=
  fun p =>
    match f p with
    | some none => none
    | v => v

/-- An unparsable sidecar and an absent sidecar load to the same
`outline_data`. -/
theorem sidecarOutline_cleanse (f : String → Option (Option OutlineData))
    (p : String) :
    sidecarOutline (cleanseSidecar f p) = sidecarOutline (f p) := by
  cases hfp : f p with
  | none => simp [cleanseSidecar, sidecarOutline, hfp]
  | some o =>
      cases o with
      | none => simp [cleanseSidecar, sidecarOutline, hfp]
      | some od => simp [cleanseSidecar, sidecarOutline, hfp]

/-- `processDoc` cannot distinguish an unparsable sidecar from a missing
one. -/
theorem processDoc_cleanse (env : Env) (pt : String) (jk : List String)
    (d : String) :
    processDoc ⟨env.pathExists, env.pdfPages, cleanseSidecar env.sidecar⟩ pt jk d =
      processDoc env pt jk d := by
  unfold processDoc
  dsimp only
  rw [sidecarOutline_cleanse]

/-- A document whose path does not exist contributes no candidate sections. -/
theorem processDoc_missing (env : Env) (pt : String) (jk : List String)
    (d : String) (h : env.pathExists d = false) :
    processDoc env pt jk d = [] := by
  unfold processDoc
  rw [h]
  rfl

/-- `all_sections` is empty when every document path is missing. -/
theorem allSections_all_missing (env : Env) (persona job : String)
    (ds : List String) (h : ∀ x ∈ ds, env.pathExists x = false) :
    allSections env ⟨ds, persona, job⟩ = [] := by
  unfold allSections
  dsimp only
  induction ds with
  | nil => rfl
  | cons x xs ih =>
      rw [List.map_cons, List.flatten_cons,
        processDoc_missing env _ _ x (h x (by simp))]
      exact ih (fun y hy => h y (by simp [hy]))

/-- Claim C9: per-document failures are isolated and never abort the batch —
a document whose path does not exist is skipped with the run otherwise
unchanged; a sidecar that exists but fails to parse behaves exactly as an
absent sidecar (the inferred fallback is used); and when no document
contributes, the result is still produced, with empty arrays. -/
theorem claim_C9_failure_isolation (env : Env) (persona job d : String)
    (ds : List String) :
    (env.pathExists d = false →
      process_documents env ⟨d :: ds, persona, job⟩ =
        process_documents env ⟨ds, persona, job⟩) ∧
    (process_documents ⟨env.pathExists, env.pdfPages, cleanseSidecar env.sidecar⟩
        ⟨ds, persona, job⟩ =
      process_documents env ⟨ds, persona, job⟩) ∧
    ((∀ x ∈ ds, env.pathExists x = false) →
      (process_documents env ⟨ds, persona, job⟩).extracted_sections = [] ∧
      (process_documents env ⟨ds, persona, job⟩).subsection_analysis = []) := by
  refine ⟨fun h => ?_, ?_, fun h => ?_⟩
  · have hall : allSections env ⟨d :: ds, persona, job⟩ =
        allSections env ⟨ds, persona, job⟩ := by
      unfold allSections
      dsimp only
      rw [List.map_cons, List.flatten_cons, processDoc_missing env _ _ d h]
      rfl
    have htop : topSections env ⟨d :: ds, persona, job⟩ =
        topSections env ⟨ds, persona, job⟩ := by
      unfold topSections
      rw [hall]
    unfold process_documents extractedSections subsectionAnalysis
    rw [htop]
    simp [List.filter_cons, h]
  · have hfun : processDoc ⟨env.pathExists, env.pdfPages, cleanseSidecar env.sidecar⟩
        (identify_persona_type persona) (extract_keywords_from_job job) =
        processDoc env (identify_persona_type persona)
          (extract_keywords_from_job job) :=
      funext (processDoc_cleanse env _ _)
    have hall : allSections
        ⟨env.pathExists, env.pdfPages, cleanseSidecar env.sidecar⟩
        ⟨ds, persona, job⟩ = allSections env ⟨ds, persona, job⟩ := by
      unfold allSections
      dsimp only
      rw [hfun]
    unfold process_documents extractedSections subsectionAnalysis topSections
    rw [hall]
  · have htop : topSections env ⟨ds, persona, job⟩ = [] := by
      unfold topSections
      rw [allSections_all_missing env persona job ds h]
      rfl
    unfold process_documents extractedSections subsectionAnalysis
    rw [htop]
    exact ⟨rfl, rfl⟩

/-- A concrete environment in which no path exists, no PDF has pages and no
sidecar file exists. -/
def emptyEnv : Env := ⟨fun _ => false, fun _ => [], fun _ => none⟩

/-- Witness for claim C9 in the empty environment: the missing document
`./pdfs/a.pdf` is skipped, and the all-missing run yields empty arrays. -/
theorem claim_C9_failure_isolation_witness :
    process_documents emptyEnv ⟨["./pdfs/a.pdf"], "PhD Researcher", "review"⟩ =
      process_documents emptyEnv ⟨[], "PhD Researcher", "review"⟩ ∧
    (process_documents emptyEnv
        ⟨["./pdfs/a.pdf"], "PhD Researcher", "review"⟩).extracted_sections = [] ∧
    (process_documents emptyEnv
        ⟨["./pdfs/a.pdf"], "PhD Researcher", "review"⟩).subsection_analysis = [] :=
  ⟨(claim_C9_failure_isolation emptyEnv "PhD Researcher" "review" "./pdfs/a.pdf" []).1 rfl,
   (claim_C9_failure_isolation emptyEnv "PhD Researcher" "review" "./pdfs/a.pdf"
      ["./pdfs/a.pdf"]).2.2 (fun _ _ => rfl)⟩

end Adobe1B
